import Mathlib

/-!
Verification of the SNS alarm-formatter Lambda (`src/lambda/alarm_formatter.py`).

The Python module is shallowly embedded:
* Python/JSON values are the inductive `PyVal`; a raised exception is the
  `Except.error` branch of `Except String _`, carrying the exception kind.
* The external standard-library calls (`json.loads`, `json.dumps`) and the
  boto3 `sns_client.publish` responses are abstract parameters collected in
  `PyEnv`; theorems quantify over them, witnesses instantiate them.
* `datetime.fromisoformat` / `strftime` are modelled concretely for the
  grammar the code exercises (date, optional time, fraction, UTC offset).
-/

/-- Values a Python expression in this module can take: the JSON-ish fragment
(`None`, `bool`, `int`, `str`, `list`, `dict` with string keys, kept as an
association list in insertion order with distinct keys). -/
inductive PyVal where
  | none
  | bool (b : Bool)
  | int (n : Int)
  | str (s : String)
  | list (xs : List PyVal)
  | dict (kvs : List (String × PyVal))

/-- Python truthiness (`bool(v)`) for the embedded value fragment. -/
def truthy : PyVal → Bool
  | .none => false
  | .bool b => b
  | .int n => n != 0
  | .str s => s != ""
  | .list xs => !xs.isEmpty
  | .dict kvs => !kvs.isEmpty

/-- Python `a or b` (short-circuit on truthiness, values already evaluated). -/
def pyOr (a b : PyVal) : PyVal := if truthy a then a else b

/-- Association-list lookup with a default: `kvs.get(k, d)` on a known dict. -/
def lookupD (kvs : List (String × PyVal)) (k : String) (d : PyVal) : PyVal :=
  (kvs.lookup k).getD d

/-- Python `v.get(k, d)`: succeeds on a dict, raises `AttributeError` on any
other receiver (ints, strings, lists, `None` have no `.get`). -/
def pyGet (v : PyVal) (k : String) (d : PyVal) : Except String PyVal :=
  match v with
  | .dict kvs => .ok (lookupD kvs k d)
  | _ => .error "AttributeError: get"

/-- Whether the value is a `str` (Python `isinstance(v, str)`). -/
def PyVal.isStr : PyVal → Bool
  | .str _ => true
  | _ => false

/-- Whether the value is a `dict` (Python `isinstance(v, dict)`). -/
def PyVal.isDict : PyVal → Bool
  | .dict _ => true
  | _ => false

/-- Single-quote character, used by the Python `repr` of strings. -/
def sQuote : String := String.singleton (Char.ofNat 39)

mutual
/-- Python `repr(v)` for the embedded fragment.  String contents are assumed
quote- and escape-free (the module never inspects `repr` output, it only
feeds it to f-strings for non-`str` values). -/
def pyRepr : PyVal → String
  | .none => "None"
  | .bool true => "True"
  | .bool false => "False"
  | .int n => toString n
  | .str s => sQuote ++ s ++ sQuote
  | .list xs => "[" ++ pyReprList xs ++ "]"
  | .dict kvs => "\x7b" ++ pyReprDict kvs ++ "\x7d"

/-- Comma-separated `repr` of list elements. -/
def pyReprList : List PyVal → String
  | [] => ""
  | [x] => pyRepr x
  | x :: y :: xs => pyRepr x ++ ", " ++ pyReprList (y :: xs)

/-- Comma-separated `repr` of dict entries. -/
def pyReprDict : List (String × PyVal) → String
  | [] => ""
  | [(k, v)] => sQuote ++ k ++ sQuote ++ ": " ++ pyRepr v
  | (k, v) :: e :: kvs => sQuote ++ k ++ sQuote ++ ": " ++ pyRepr v ++ ", " ++ pyReprDict (e :: kvs)
end

/-- Python `str(v)` as used by f-string interpolation: identity on `str`,
`repr`-style rendering otherwise. -/
def pyStr : PyVal → String
  | .str s => s
  | .none => "None"
  | .bool true => "True"
  | .bool false => "False"
  | .int n => toString n
  | .list xs => "[" ++ pyReprList xs ++ "]"
  | .dict kvs => "\x7b" ++ pyReprDict kvs ++ "\x7d"

/-- Python slicing `s[:n]`: the first `n` code points of `s`. -/
def pySlice (s : String) (n : Nat) : String := String.mk (s.data.take n)

/-- Does `p` start the character list `cs`? -/
def startsWithL : List Char → List Char → Bool
  | [], _ => true
  | _ :: _, [] => false
  | p :: ps, c :: cs => p = c && startsWithL ps cs

/-- Replace every non-overlapping occurrence of `pat` in the list,
left-to-right; the fuel (initially the list length) only makes the
recursion structural and is never exhausted. -/
def listReplace (pat rep : List Char) : Nat → List Char → List Char
  | _, [] => []
  | 0, cs => cs
  | fuel + 1, c :: rest =>
    if startsWithL pat (c :: rest) && decide (pat ≠ []) then
      rep ++ listReplace pat rep fuel (List.drop (pat.length - 1) rest)
    else
      c :: listReplace pat rep fuel rest

/-- Python `s.replace(pat, rep)` (for a non-empty pattern): every
non-overlapping occurrence, scanned left-to-right. -/
def pyReplace (s pat rep : String) : String :=
  String.mk (listReplace pat.data rep.data s.data.length s.data)

/-- Python `s.upper()` on the ASCII range the module compares against. -/
def pyUpper (s : String) : String := String.mk (s.data.map Char.toUpper)

/-- Python `sep.join(xs)` on a list of strings. -/
def pyJoinStr (sep : String) : List String → String
  | [] => ""
  | x :: xs => xs.foldl (fun acc y => acc ++ sep ++ y) x

/-- One item of `sep.join(vs)`: must be a `str`, else `TypeError`. -/
def asStr : PyVal → Except String String
  | .str s => .ok s
  | _ => .error "TypeError: sequence item: expected str instance"

/-- Check every joined item is a `str`, keeping the contents. -/
def strItems : List PyVal → Except String (List String)
  | [] => .ok []
  | v :: vs => do
    let s ← asStr v
    let ss ← strItems vs
    return (s :: ss)

/-- Python `sep.join(vs)` over arbitrary values: raises `TypeError` when any
element is not a `str`. -/
def pyJoinVals (sep : String) (vs : List PyVal) : Except String String := do
  let ss ← strItems vs
  return pyJoinStr sep ss

/-- Python iteration `for x in v`: lists yield elements, strings yield
one-character strings, dicts yield their keys; other values raise
`TypeError`. -/
def pyIter : PyVal → Except String (List PyVal)
  | .list xs => .ok xs
  | .str s => .ok (s.data.map fun c => .str (String.singleton c))
  | .dict kvs => .ok (kvs.map fun kv => .str kv.1)
  | _ => .error "TypeError: not iterable"

/-! ### A model of `datetime.fromisoformat` / `strftime` -/

/-- The naive datetime produced by `datetime.fromisoformat`; the UTC offset
(seconds, when a `+HH:MM[:SS]` suffix was present) is carried but unused by
`strftime("%Y-%m-%d %H:%M:%S")`. -/
structure PyDateTime where
  year : Nat
  month : Nat
  day : Nat
  hour : Nat
  minute : Nat
  second : Nat
  microsecond : Nat
  utcoffset : Option Int

/-- Gregorian leap-year rule. -/
def isLeap (y : Nat) : Bool := (y % 4 = 0 && y % 100 != 0) || y % 400 = 0

/-- Number of days in a month of a given year. -/
def daysInMonth (y m : Nat) : Nat :=
  if m = 2 then (if isLeap y then 29 else 28)
  else if m = 4 || m = 6 || m = 9 || m = 11 then 30
  else 31

/-- Decimal value of a digit list. -/
def digitsToNat (cs : List Char) : Nat :=
  cs.foldl (fun a c => a * 10 + (c.toNat - 48)) 0

/-- Consume exactly `n` decimal digits. -/
def takeDigits (n : Nat) (cs : List Char) : Option (Nat × List Char) :=
  let pre := cs.take n
  if pre.length = n && pre.all Char.isDigit then some (digitsToNat pre, cs.drop n)
  else Option.none

/-- Consume one expected character. -/
def expectChar (c : Char) : List Char → Option (List Char)
  | x :: rest => if x = c then some rest else Option.none
  | [] => Option.none

/-- Fractional seconds after the dot: one to six digits, scaled to
microseconds. -/
def parseFrac (cs : List Char) : Option (Nat × List Char) :=
  let ds := cs.takeWhile Char.isDigit
  if ds.length = 0 || 6 < ds.length then Option.none
  else some (digitsToNat ds * 10 ^ (6 - ds.length), cs.drop ds.length)

/-- UTC-offset body after the sign: `HH:MM` or `HH:MM:SS`, consuming the rest
of the input; yields the magnitude in seconds. -/
def parseTzTail (cs : List Char) : Option Nat := do
  let (oh, cs) ← takeDigits 2 cs
  let cs ← expectChar ':' cs
  let (om, cs) ← takeDigits 2 cs
  match cs with
  | [] => if oh ≤ 23 && om ≤ 59 then some (oh * 3600 + om * 60) else Option.none
  | _ => do
    let cs ← expectChar ':' cs
    let (os, cs) ← takeDigits 2 cs
    if cs.isEmpty && (oh ≤ 23 && om ≤ 59 && os ≤ 59) then
      some (oh * 3600 + om * 60 + os)
    else Option.none

/-- Optional signed UTC offset terminating the timestamp. -/
def parseOffset (cs : List Char) : Option (Option Int) :=
  match cs with
  | [] => some Option.none
  | c :: rest =>
    if c = '+' then (parseTzTail rest).map (fun n => some (Int.ofNat n))
    else if c = '-' then (parseTzTail rest).map (fun n => some (-(Int.ofNat n)))
    else Option.none

/-- Time-of-day part `HH[:MM[:SS[.ffffff]]]` followed by an optional offset,
consuming the rest of the input. -/
def parseTime (cs : List Char) : Option (Nat × Nat × Nat × Nat × Option Int) := do
  let (h, cs) ← takeDigits 2 cs
  match cs with
  | ':' :: cs2 => do
    let (mi, cs3) ← takeDigits 2 cs2
    match cs3 with
    | ':' :: cs4 => do
      let (se, cs5) ← takeDigits 2 cs4
      match cs5 with
      | '.' :: cs6 => do
        let (micro, cs7) ← parseFrac cs6
        let off ← parseOffset cs7
        pure (h, mi, se, micro, off)
      | _ => do
        let off ← parseOffset cs5
        pure (h, mi, se, 0, off)
    | _ => do
      let off ← parseOffset cs3
      pure (h, mi, 0, 0, off)
  | _ => do
    let off ← parseOffset cs
    pure (h, 0, 0, 0, off)

/-- Range validation performed by the `datetime` constructor. -/
def mkDateTime (y mo d h mi se micro : Nat) (off : Option Int) : Option PyDateTime :=
  if 1 ≤ y && y ≤ 9999 && (1 ≤ mo && mo ≤ 12) && (1 ≤ d && d ≤ daysInMonth y mo)
      && h ≤ 23 && mi ≤ 59 && se ≤ 59 && micro ≤ 999999 then
    some ⟨y, mo, d, h, mi, se, micro, off⟩
  else Option.none

/-- Model of `datetime.fromisoformat`: `YYYY-MM-DD`, optionally followed by a
single separator character and `HH[:MM[:SS[.ffffff]]][±HH:MM[:SS]]`;
`Option.none` models the `ValueError` raised on any other input. -/
def fromisoformat (s : String) : Option PyDateTime := do
  let cs := s.data
  let (y, cs) ← takeDigits 4 cs
  let cs ← expectChar '-' cs
  let (mo, cs) ← takeDigits 2 cs
  let cs ← expectChar '-' cs
  let (d, cs) ← takeDigits 2 cs
  match cs with
  | [] => mkDateTime y mo d 0 0 0 0 Option.none
  | _sep :: rest => do
    let (h, mi, se, micro, off) ← parseTime rest
    mkDateTime y mo d h mi se micro off

/-- Zero-pad a number to a field width, as `strftime` does. -/
def zpad (w n : Nat) : String :=
  let s := toString n
  String.mk (List.replicate (w - s.length) '0') ++ s

/-- Model of `dt.strftime("%Y-%m-%d %H:%M:%S")`. -/
def strftimeYmdHms (dt : PyDateTime) : String :=
  zpad 4 dt.year ++ "-" ++ zpad 2 dt.month ++ "-" ++ zpad 2 dt.day ++ " " ++
    zpad 2 dt.hour ++ ":" ++ zpad 2 dt.minute ++ ":" ++ zpad 2 dt.second

/-! ### The formatter functions of `alarm_formatter.py` -/

/-- `severity_text` (lines 129-135): upper-case the state and look it up in
the three-entry mapping, defaulting to `"INFO"`. -/
def severity_text (state : String) : String :=
  let u := pyUpper state
  if u = "ALARM" then "CRITICAL"
  else if u = "INSUFFICIENT_DATA" then "WARNING"
  else if u = "OK" then "RESOLVED"
  else "INFO"

/-- `severity_text` applied to a dynamic value: `state.upper()` raises
`AttributeError` unless the value is a `str`. -/
def pySeverityText (state : PyVal) : Except String String :=
  match state with
  | .str s => .ok (severity_text s)
  | _ => .error "AttributeError: upper"

/-- `format_timestamp` (lines 138-145): falsy values give `"Unknown"`;
otherwise `value.replace("Z", "+00:00")` is parsed with
`datetime.fromisoformat`, rendered on success, and the `ValueError` of a
failed parse is caught by returning the value unchanged.  A truthy non-`str`
value raises `AttributeError` at `.replace`. -/
def format_timestamp (value : PyVal) : Except String String :=
  if !truthy value then .ok "Unknown"
  else match value with
  | .str s =>
    match fromisoformat (pyReplace s "Z" "+00:00") with
    | some dt => .ok (strftimeYmdHms dt ++ " UTC")
    | Option.none => .ok s
  | _ => .error "AttributeError: replace"

/-- `normalize_message` (lines 58-66) with `json.loads` abstracted as
`decode` (`Option.none` models `json.JSONDecodeError`, which is caught): a
successful decode to a dict is returned as-is, anything else is wrapped as
`{"raw_message": message}`.  `json.loads` on a non-`str` argument raises an
uncaught `TypeError`. -/
def normalize_message (decode : String → Option PyVal) (message : PyVal) :
    Except String PyVal :=
  match message with
  | .str s =>
    .ok (match decode s with
      | some (.dict kvs) => .dict kvs
      | _ => .dict [("raw_message", .str s)])
  | _ => .error "TypeError: loads"

/-- The state chain `payload.get("NewStateValue") or payload.get("StateValue")
or "UNKNOWN"` shared by `format_subject` and `format_body`. -/
def resolveState (payload : PyVal) : Except String PyVal := do
  let a ← pyGet payload "NewStateValue" .none
  let b ← pyGet payload "StateValue" .none
  return pyOr a (pyOr b (.str "UNKNOWN"))

/-- The subject alarm name `payload.get("AlarmName") or payload.get("Alarm")
or "CloudWatch Alarm"` (line 72). -/
def subjectAlarmName (payload : PyVal) : Except String PyVal := do
  let a ← pyGet payload "AlarmName" .none
  let b ← pyGet payload "Alarm" .none
  return pyOr a (pyOr b (.str "CloudWatch Alarm"))

/-- The body alarm name `payload.get("AlarmName", "Unknown")` (line 79). -/
def bodyAlarmName (payload : PyVal) : Except String PyVal :=
  pyGet payload "AlarmName" (.str "Unknown")

/-- `format_subject` (lines 69-74). -/
def format_subject (payload : PyVal) : Except String String := do
  let state ← resolveState payload
  let alarm_name ← subjectAlarmName payload
  let severity_label ← pySeverityText state
  return severity_label ++ " - " ++ pyStr alarm_name

/-- The derived trigger record built by `extract_trigger_info`; in the code a
`dict` with these seven fixed keys (`dimensions` is always a `str` by the
time it is stored). -/
structure TriggerInfo where
  metric_name : PyVal
  nameSpace : PyVal
  statistic : PyVal
  period : PyVal
  evaluation_periods : PyVal
  threshold : PyVal
  dimensions : String

/-- The dimensions rendering of lines 167-173: a list keeps only its `dict`
elements and joins the name=value f-string of each (looking up the
lower-case name and value keys, each defaulting to None) with a comma,
falling back to `"None"` when the join is empty; any non-list value is
passed to `str()`. -/
def renderDims : PyVal → String
  | .list xs =>
    let t := pyJoinStr ", " ((xs.filter fun d => d.isDict).map fun d =>
      pyStr ((pyGet d "name" .none).toOption.getD .none) ++ "=" ++
        pyStr ((pyGet d "value" .none).toOption.getD .none))
    if t = "" then "None" else t
  | v => pyStr v

/-- `extract_trigger_info` (lines 148-183): a falsy trigger yields the
all-default record; a truthy non-dict raises `AttributeError` at `.get`;
otherwise each field is resolved through its `or`-chain of key names and the
dimensions value (defaulted to `[]`) is rendered by `renderDims`. -/
def extract_trigger_info (trigger : PyVal) : Except String TriggerInfo :=
  if !truthy trigger then
    .ok ⟨.str "Unknown", .str "Unknown", .str "Unknown", .str "Unknown",
      .str "Unknown", .str "Unknown", "None"⟩
  else do
    let mn ← pyGet trigger "MetricName" .none
    let m ← pyGet trigger "Metric" .none
    let ns ← pyGet trigger "Namespace" (.str "Unknown")
    let st1 ← pyGet trigger "Statistic" .none
    let st2 ← pyGet trigger "Stat" (.str "Unknown")
    let p1 ← pyGet trigger "Period" .none
    let p2 ← pyGet trigger "PeriodInSeconds" .none
    let ep ← pyGet trigger "EvaluationPeriods" (.str "Unknown")
    let th ← pyGet trigger "Threshold" (.str "Unknown")
    let d1 ← pyGet trigger "Dimensions" .none
    let d2 ← pyGet trigger "dimension" .none
    return ⟨pyOr mn (pyOr m (.str "Unknown")), ns, pyOr st1 st2,
      pyOr p1 (pyOr p2 (.str "Unknown")), ep, th,
      renderDims (pyOr d1 (pyOr d2 (.list [])))⟩

/-- The 70-character equals-sign separator of line 87. -/
def sepEq : String := String.mk (List.replicate 70 (Char.ofNat 61))

/-- The 70-character dash separator of lines 108 and 110. -/
def sepDash : String := String.mk (List.replicate 70 (Char.ofNat 45))

/-- `format_body` (lines 77-126) with `json.dumps(·, indent=2, default=str)`
abstracted as the total function `dumps` (`default=str` makes it total on
this value fragment) and the `INCLUDE_RAW_PAYLOAD` flag as `includeRaw`.
The `lines` list mixes f-string entries (always `str`) with the bare
`reason` and `payload.get("AlarmArn", "Unknown")` values, so the final
`"\n".join(lines)` raises `TypeError` when either of those is not a `str`. -/
def format_body (dumps : PyVal → String) (includeRaw : Bool) (payload : PyVal) :
    Except String String := do
  let state ← resolveState payload
  let severity ← pySeverityText state
  let alarm_name ← bodyAlarmName payload
  let from_state ← pyGet payload "OldStateValue" (.str "UNKNOWN")
  let to_state ← resolveState payload
  let nsr ← pyGet payload "NewStateReason" .none
  let sr ← pyGet payload "StateReason" (.str "No reason provided")
  let reason := pyOr nsr sr
  let sct ← pyGet payload "StateChangeTime" .none
  let stt ← pyGet payload "StateTransitionTime" .none
  let timestamp_text ← format_timestamp (pyOr sct stt)
  let trig ← pyGet payload "Trigger" .none
  let trigger_info ← extract_trigger_info (pyOr trig (.dict []))
  let alarm_arn ← pyGet payload "AlarmArn" (.str "Unknown")
  let region ← pyGet payload "Region" (.str "Unknown")
  let account ← pyGet payload "AWSAccountId" (.str "Unknown")
  let lines : List PyVal := [
    .str (severity ++ " - " ++ pyStr alarm_name),
    .str sepEq,
    .str "",
    .str "🔔 STATE CHANGE",
    .str ("From: " ++ pyStr from_state ++ " → To: " ++ pyStr to_state),
    .str "",
    .str "📊 REASON",
    reason,
    .str "",
    .str "📈 METRIC DETAILS",
    .str ("• Metric: " ++ pyStr trigger_info.metric_name),
    .str ("• Namespace: " ++ pyStr trigger_info.nameSpace),
    .str ("• Statistic: " ++ pyStr trigger_info.statistic),
    .str ("• Period: " ++ pyStr trigger_info.period ++ " minute"),
    .str ("• Evaluation Periods: " ++ pyStr trigger_info.evaluation_periods),
    .str ("• Threshold: " ++ pyStr trigger_info.threshold),
    .str ("• Dimensions: " ++ trigger_info.dimensions),
    .str "",
    .str "📌 SOURCE RESOURCE",
    alarm_arn,
    .str "",
    .str "🧾 LOG ENTRY",
    .str sepDash,
    .str "not available",
    .str sepDash,
    .str "",
    .str "ℹ️ ADDITIONAL INFO",
    .str ("• Time: " ++ timestamp_text),
    .str ("• Region: " ++ pyStr region),
    .str ("• Account: " ++ pyStr account)]
  let lines := if includeRaw then
      lines ++ [.str "", .str "Raw Payload:", .str (dumps payload)]
    else lines
  pyJoinVals "\n" lines

/-! ### The handler -/

/-- The external collaborators of the module: `json.loads` (`Option.none`
models `json.JSONDecodeError`), `json.dumps(·, indent=2, default=str)`
(total), and the response dict boto3 returns for the n-th `publish` call of
the invocation. -/
structure PyEnv where
  jsonLoads : String → Option PyVal
  jsonDumps : PyVal → String
  publishResponse : Nat → List (String × PyVal)

/-- One observed `sns_client.publish` call (line 45-49). -/
structure PublishCall where
  topicArn : String
  subject : String
  message : String

/-- The loop state of `lambda_handler`: the accumulated `message_ids` and the
publish calls made so far. -/
structure LoopState where
  message_ids : List PyVal
  calls : List PublishCall

/-- The body of the `for` loop of `lambda_handler` (lines 30-53) for one
record: fetch `record.get("Sns", {})` and `sns.get("Message")`, skip falsy
messages, normalize and format, skip when no topic is configured, publish
(recording the call, with the subject truncated to 100 characters) and
collect a truthy `MessageId` from the response. -/
def processRecord (env : PyEnv) (topicArn : String) (includeRaw : Bool)
    (st : LoopState) (record : PyVal) : Except String LoopState := do
  let sns ← pyGet record "Sns" (.dict [])
  let raw_message ← pyGet sns "Message" .none
  if !truthy raw_message then return st
  let payload ← normalize_message env.jsonLoads raw_message
  let subject ← format_subject payload
  let body ← format_body env.jsonDumps includeRaw payload
  if topicArn = "" then return st
  let response := env.publishResponse st.calls.length
  let st : LoopState :=
    ⟨st.message_ids, st.calls ++ [⟨topicArn, pySlice subject 100, body⟩]⟩
  let message_id := lookupD response "MessageId" .none
  if truthy message_id then
    return ⟨st.message_ids ++ [message_id], st.calls⟩
  return st

/-- `lambda_handler` (lines 20-55), parametrised by the environment-derived
configuration `FORMATTED_TOPIC_ARN` and `INCLUDE_RAW_PAYLOAD`; besides the
returned dict it exposes the list of publish calls performed. -/
def lambda_handler (env : PyEnv) (topicArn : String) (includeRaw : Bool)
    (event : PyVal) : Except String (PyVal × List PublishCall) := do
  let records ← pyGet event "Records" (.list [])
  if !truthy records then
    return (.dict [("statusCode", .int 400), ("body", .str "No SNS records provided")], [])
  let items ← pyIter records
  let st ← items.foldlM (processRecord env topicArn includeRaw) ⟨[], []⟩
  return (.dict [("statusCode", .int 200), ("messageIds", .list st.message_ids)], st.calls)

/-! ### Well-typedness predicates for the record loop -/

/-- The value of the state chain of lines 71/78/81 on a dict payload. -/
def stateOf (kvs : List (String × PyVal)) : PyVal :=
  pyOr (lookupD kvs "NewStateValue" .none)
    (pyOr (lookupD kvs "StateValue" .none) (.str "UNKNOWN"))

/-- The value of the reason chain of line 82 on a dict payload. -/
def reasonOf (kvs : List (String × PyVal)) : PyVal :=
  pyOr (lookupD kvs "NewStateReason" .none)
    (lookupD kvs "StateReason" (.str "No reason provided"))

/-- The value passed to `format_timestamp` on line 83. -/
def tsOf (kvs : List (String × PyVal)) : PyVal :=
  pyOr (lookupD kvs "StateChangeTime" .none)
    (lookupD kvs "StateTransitionTime" .none)

/-- The value passed to `extract_trigger_info` on line 84. -/
def trigOf (kvs : List (String × PyVal)) : PyVal :=
  pyOr (lookupD kvs "Trigger" .none) (.dict [])

/-- The value on line 105, placed bare into the `lines` list. -/
def arnOf (kvs : List (String × PyVal)) : PyVal :=
  lookupD kvs "AlarmArn" (.str "Unknown")

/-- The payload values `format_subject`/`format_body` consume without
raising: the state, reason and alarm-ARN values are strings, the timestamp
value is falsy or a string, and the trigger value is falsy or a dict. -/
def payloadOK (kvs : List (String × PyVal)) : Bool :=
  (stateOf kvs).isStr && (reasonOf kvs).isStr && (arnOf kvs).isStr
    && (!truthy (tsOf kvs) || (tsOf kvs).isStr)
    && (!truthy (trigOf kvs) || (trigOf kvs).isDict)

/-- The dict `normalize_message` produces for the raw string `s`. -/
def decodedPayload (decode : String → Option PyVal) (s : String) :
    List (String × PyVal) :=
  match decode s with
  | some (.dict kvs) => kvs
  | _ => [("raw_message", .str s)]

/-- A record the loop skips at line 33-35: a dict whose `Sns` entry is a dict
(or absent, defaulting to `{}`) with a falsy (or absent) `Message`. -/
def missingMessage (r : PyVal) : Bool :=
  match r with
  | .dict rv =>
    match lookupD rv "Sns" (.dict []) with
    | .dict sns => !truthy (lookupD sns "Message" .none)
    | _ => false
  | _ => false

/-- A record the loop fully processes without raising: dict record, dict
`Sns`, non-empty string `Message`, and a well-typed decoded payload. -/
def goodRecord (decode : String → Option PyVal) (r : PyVal) : Bool :=
  match r with
  | .dict rv =>
    match lookupD rv "Sns" (.dict []) with
    | .dict sns =>
      match lookupD sns "Message" .none with
      | .str s => s ≠ "" && payloadOK (decodedPayload decode s)
      | _ => false
    | _ => false
  | _ => false

/-- An event on which the handler provably raises nothing: a dict whose
`Records` value is either falsy (the 400 path) or a list all of whose
elements are skipped or fully processed without raising. -/
def eventOK (decode : String → Option PyVal) (event : PyVal) : Bool :=
  match event with
  | .dict ev =>
    match lookupD ev "Records" (.list []) with
    | .list rs => rs.all fun r => missingMessage r || goodRecord decode r
    | v => !truthy v
  | _ => false

/-! ### Helper lemmas -/

/-- Bind of a success in the `Except` monad. -/
@[simp] theorem exceptBind_ok {α β : Type} (a : α) (f : α → Except String β) :
    (Except.ok a >>= f) = f a := rfl

/-- Bind of a failure in the `Except` monad. -/
@[simp] theorem exceptBind_err {α β : Type} (e : String) (f : α → Except String β) :
    ((Except.error e : Except String α) >>= f) = .error e := rfl

/-- Pure of the `Except` monad. -/
@[simp] theorem exceptPure {α : Type} (a : α) :
    (pure a : Except String α) = .ok a := rfl

/-- `.get` on a known dict. -/
@[simp] theorem pyGet_dict (kvs : List (String × PyVal)) (k : String) (d : PyVal) :
    pyGet (.dict kvs) k d = .ok (lookupD kvs k d) := rfl

/-- The state chain on a dict payload. -/
@[simp] theorem resolveState_dict (kvs : List (String × PyVal)) :
    resolveState (.dict kvs) = .ok (stateOf kvs) := rfl

/-- The subject name chain on a dict payload. -/
@[simp] theorem subjectAlarmName_dict (kvs : List (String × PyVal)) :
    subjectAlarmName (.dict kvs) =
      .ok (pyOr (lookupD kvs "AlarmName" .none)
        (pyOr (lookupD kvs "Alarm" .none) (.str "CloudWatch Alarm"))) := rfl

/-- The body name lookup on a dict payload. -/
@[simp] theorem bodyAlarmName_dict (kvs : List (String × PyVal)) :
    bodyAlarmName (.dict kvs) = .ok (lookupD kvs "AlarmName" (.str "Unknown")) := rfl

/-- A value satisfying `isStr` is a string literal. -/
theorem isStr_exists {v : PyVal} (h : v.isStr = true) : ∃ s, v = .str s := by
  cases v <;> simp_all [PyVal.isStr]

/-- A value satisfying `isDict` is a dict literal. -/
theorem isDict_exists {v : PyVal} (h : v.isDict = true) : ∃ kvs, v = .dict kvs := by
  cases v <;> simp_all [PyVal.isDict]

/-- `normalize_message` on a string returns the decoded payload dict. -/
theorem normalize_message_decoded (decode : String → Option PyVal) (s : String) :
    normalize_message decode (.str s) = .ok (.dict (decodedPayload decode s)) := by
  unfold normalize_message decodedPayload
  cases h : decode s with
  | none => simp [h]
  | some v => cases v <;> simp [h]

/-- `format_timestamp` never raises on a falsy or string value. -/
theorem format_timestamp_ok {v : PyVal} (h : truthy v = false ∨ v.isStr = true) :
    ∃ s, format_timestamp v = .ok s := by
  unfold format_timestamp
  rcases h with h | h
  · simp [h]
  · obtain ⟨s, rfl⟩ := isStr_exists h
    by_cases ht : truthy (.str s) <;>
      cases hfi : fromisoformat (pyReplace s "Z" "+00:00") <;> simp [ht, hfi]

/-- `extract_trigger_info` never raises on a falsy or dict value. -/
theorem extract_trigger_info_ok {v : PyVal} (h : truthy v = false ∨ v.isDict = true) :
    ∃ ti, extract_trigger_info v = .ok ti := by
  unfold extract_trigger_info
  rcases h with h | h
  · simp [h]
  · obtain ⟨kvs, rfl⟩ := isDict_exists h
    by_cases ht : truthy (.dict kvs) <;> simp [ht]

/-- A join over values that are all strings never raises. -/
theorem pyJoinVals_ok {sep : String} {vs : List PyVal}
    (h : ∀ v ∈ vs, v.isStr = true) : ∃ s, pyJoinVals sep vs = .ok s := by
  unfold pyJoinVals
  suffices hs : ∃ ss, strItems vs = Except.ok ss by
    obtain ⟨ss, hss⟩ := hs
    exact ⟨pyJoinStr sep ss, by simp [hss]⟩
  induction vs with
  | nil => exact ⟨[], rfl⟩
  | cons v vs ih =>
    obtain ⟨s, rfl⟩ := isStr_exists (h v (by simp))
    obtain ⟨ss, hss⟩ := ih fun x hx => h x (by simp [hx])
    exact ⟨s :: ss, by simp [strItems, hss, asStr]⟩

/-- `format_subject` never raises on a dict payload whose state value is a
string. -/
theorem format_subject_ok {kvs : List (String × PyVal)}
    (h : (stateOf kvs).isStr = true) : ∃ s, format_subject (.dict kvs) = .ok s := by
  obtain ⟨s0, hs0⟩ := isStr_exists h
  refine ⟨severity_text s0 ++ " - " ++
    pyStr (pyOr (lookupD kvs "AlarmName" .none)
      (pyOr (lookupD kvs "Alarm" .none) (.str "CloudWatch Alarm"))), ?_⟩
  simp only [format_subject, resolveState_dict, subjectAlarmName_dict,
    exceptBind_ok, hs0, pySeverityText, exceptPure]

/-- `format_body` never raises on a dict payload satisfying `payloadOK`. -/
theorem format_body_ok (dumps : PyVal → String) (ir : Bool)
    {kvs : List (String × PyVal)} (h : payloadOK kvs = true) :
    ∃ b, format_body dumps ir (.dict kvs) = .ok b := by
  unfold payloadOK at h
  simp only [Bool.and_eq_true, Bool.or_eq_true, Bool.not_eq_true'] at h
  obtain ⟨⟨⟨⟨hstate, hreason⟩, harn⟩, hts⟩, htrig⟩ := h
  obtain ⟨s0, hs0⟩ := isStr_exists hstate
  obtain ⟨rs, hrs⟩ := isStr_exists hreason
  obtain ⟨asn, hasn⟩ := isStr_exists harn
  obtain ⟨tss, htss⟩ := format_timestamp_ok hts
  obtain ⟨ti, hti⟩ := extract_trigger_info_ok htrig
  simp only [stateOf] at hs0
  simp only [reasonOf] at hrs
  simp only [arnOf] at hasn
  simp only [tsOf] at htss
  simp only [trigOf] at hti
  unfold format_body
  simp only [resolveState_dict, stateOf, pyGet_dict, exceptBind_ok, hs0, hrs,
    hasn, htss, hti, pySeverityText, exceptPure]
  cases ir <;>
    simp [pyJoinVals, strItems, asStr]

/-- `payloadOK` gives a string state value. -/
theorem payloadOK_state {kvs : List (String × PyVal)} (h : payloadOK kvs = true) :
    (stateOf kvs).isStr = true := by
  unfold payloadOK at h
  simp only [Bool.and_eq_true] at h
  exact h.1.1.1.1

/-- The `message_ids` contribution of the n-th publish: the response's
`MessageId` when truthy, nothing otherwise (lines 50-52). -/
def midList (env : PyEnv) (n : Nat) : List PyVal :=
  let message_id := lookupD (env.publishResponse n) "MessageId" .none
  if truthy message_id then [message_id] else []

/-- A record flagged `missingMessage` is skipped: the loop state is
unchanged and nothing is published. -/
theorem processRecord_skip (env : PyEnv) (topicArn : String) (ir : Bool)
    (st : LoopState) {r : PyVal} (h : missingMessage r = true) :
    processRecord env topicArn ir st r = .ok st := by
  unfold missingMessage at h
  cases r with
  | dict rv =>
    cases hs : lookupD rv "Sns" (.dict []) with
    | dict sns =>
      simp only [hs, Bool.not_eq_true'] at h
      simp [processRecord, pyGet_dict, hs, h]
    | none => simp [hs] at h
    | bool b => simp [hs] at h
    | int n => simp [hs] at h
    | str s => simp [hs] at h
    | list xs => simp [hs] at h
  | none => simp at h
  | bool b => simp at h
  | int n => simp at h
  | str s => simp at h
  | list xs => simp at h

/-- A `goodRecord` with a configured topic publishes exactly once: one call
is appended (subject truncated to 100 characters) and `message_ids` grows by
the truthy `MessageId` of the response, if any. -/
theorem processRecord_good (env : PyEnv) (topicArn : String) (ir : Bool)
    (st : LoopState) {r : PyVal} (h : goodRecord env.jsonLoads r = true)
    (ht : ¬ topicArn = "") :
    ∃ subj body,
      processRecord env topicArn ir st r = .ok
        ⟨st.message_ids ++ midList env st.calls.length,
          st.calls ++ [⟨topicArn, pySlice subj 100, body⟩]⟩ := by
  unfold goodRecord at h
  cases r with
  | dict rv =>
    cases hs : lookupD rv "Sns" (.dict []) with
    | dict sns =>
      simp only [hs] at h
      cases hm : lookupD sns "Message" .none with
      | str s =>
        simp only [hm, Bool.and_eq_true, ne_eq, decide_eq_true_eq] at h
        obtain ⟨hne, hpl⟩ := h
        obtain ⟨subj, hsubj⟩ := format_subject_ok (payloadOK_state hpl)
        obtain ⟨body, hbody⟩ := format_body_ok env.jsonDumps ir hpl
        refine ⟨subj, body, ?_⟩
        have htr : truthy (.str s) = true := by simp [truthy, hne]
        simp only [processRecord, pyGet_dict, hs, hm, exceptBind_ok, htr,
          Bool.not_true, Bool.false_eq_true, if_false,
          normalize_message_decoded, hsubj, hbody, ht, if_neg ht, midList]
        cases hmid : truthy (lookupD (env.publishResponse st.calls.length)
            "MessageId" .none) <;>
          simp [hmid]
      | none => simp [hm] at h
      | bool b => simp [hm] at h
      | int n => simp [hm] at h
      | list xs => simp [hm] at h
      | dict kvs2 => simp [hm] at h
    | none => simp [hs] at h
    | bool b => simp [hs] at h
    | int n => simp [hs] at h
    | str s => simp [hs] at h
    | list xs => simp [hs] at h
  | none => simp at h
  | bool b => simp at h
  | int n => simp at h
  | str s => simp at h
  | list xs => simp at h

/-- A `goodRecord` with no configured topic is skipped at the topic check
(lines 41-43): the state is unchanged. -/
theorem processRecord_good_noTopic (env : PyEnv) (ir : Bool)
    (st : LoopState) {r : PyVal} (h : goodRecord env.jsonLoads r = true) :
    processRecord env "" ir st r = .ok st := by
  unfold goodRecord at h
  cases r with
  | dict rv =>
    cases hs : lookupD rv "Sns" (.dict []) with
    | dict sns =>
      simp only [hs] at h
      cases hm : lookupD sns "Message" .none with
      | str s =>
        simp only [hm, Bool.and_eq_true, ne_eq, decide_eq_true_eq] at h
        obtain ⟨hne, hpl⟩ := h
        obtain ⟨subj, hsubj⟩ := format_subject_ok (payloadOK_state hpl)
        obtain ⟨body, hbody⟩ := format_body_ok env.jsonDumps ir hpl
        have htr : truthy (.str s) = true := by simp [truthy, hne]
        simp [processRecord, pyGet_dict, hs, hm, htr, normalize_message_decoded,
          hsubj, hbody]
      | none => simp [hm] at h
      | bool b => simp [hm] at h
      | int n => simp [hm] at h
      | list xs => simp [hm] at h
      | dict kvs2 => simp [hm] at h
    | none => simp [hs] at h
    | bool b => simp [hs] at h
    | int n => simp [hs] at h
    | str s => simp [hs] at h
    | list xs => simp [hs] at h
  | none => simp at h
  | bool b => simp at h
  | int n => simp at h
  | str s => simp at h
  | list xs => simp at h

/-- Folding the record loop over records that are each skipped or fully
processed never raises, whatever the topic configuration. -/
theorem foldlM_ok (env : PyEnv) (topicArn : String) (ir : Bool)
    {rs : List PyVal}
    (h : ∀ r ∈ rs, (missingMessage r || goodRecord env.jsonLoads r) = true) :
    ∀ st, ∃ st2, List.foldlM (processRecord env topicArn ir) st rs = .ok st2 := by
  induction rs with
  | nil => exact fun st => ⟨st, rfl⟩
  | cons r rs ih =>
    intro st
    have hr := h r (by simp)
    simp only [Bool.or_eq_true] at hr
    have hstep : ∃ st1, processRecord env topicArn ir st r = .ok st1 := by
      rcases hr with hmiss | hgood
      · exact ⟨st, processRecord_skip env topicArn ir st hmiss⟩
      · by_cases htop : topicArn = ""
        · subst htop
          exact ⟨st, processRecord_good_noTopic env ir st hgood⟩
        · obtain ⟨subj, body, hpr⟩ := processRecord_good env topicArn ir st hgood htop
          exact ⟨_, hpr⟩
    obtain ⟨st1, hst1⟩ := hstep
    obtain ⟨st2, hst2⟩ := ih (fun x hx => h x (by simp [hx])) st1
    exact ⟨st2, by simp [List.foldlM_cons, hst1, hst2]⟩

/-- Any successful step of the record loop either leaves the call list
unchanged or appends exactly one call whose subject is the 100-character
truncation of a `format_subject` result. -/
theorem processRecord_calls (env : PyEnv) (topicArn : String) (ir : Bool)
    (st : LoopState) (r : PyVal) {st1 : LoopState}
    (h : processRecord env topicArn ir st r = .ok st1) :
    st1.calls = st.calls ∨
      ∃ s b, st1.calls = st.calls ++ [⟨topicArn, pySlice s 100, b⟩] := by
  unfold processRecord at h
  cases hsns : pyGet r "Sns" (.dict []) with
  | error e => simp [hsns] at h
  | ok sns =>
    simp only [hsns, exceptBind_ok] at h
    cases hraw : pyGet sns "Message" .none with
    | error e => simp [hraw] at h
    | ok raw =>
      simp only [hraw, exceptBind_ok] at h
      by_cases htr : truthy raw
      · simp only [htr, Bool.not_true, Bool.false_eq_true, if_false] at h
        cases hpl : normalize_message env.jsonLoads raw with
        | error e => simp [hpl] at h
        | ok payload =>
          simp only [hpl, exceptBind_ok] at h
          cases hsubj : format_subject payload with
          | error e => simp [hsubj] at h
          | ok subj =>
            simp only [hsubj, exceptBind_ok] at h
            cases hbody : format_body env.jsonDumps ir payload with
            | error e => simp [hbody] at h
            | ok body =>
              simp only [hbody, exceptBind_ok] at h
              by_cases htop : topicArn = ""
              · simp only [htop, if_true, exceptBind_ok, exceptPure,
                  Except.ok.injEq] at h
                subst h
                exact Or.inl rfl
              · simp only [if_neg htop] at h
                by_cases hmid : truthy (lookupD
                    (env.publishResponse st.calls.length) "MessageId" .none)
                · simp only [hmid, if_true, exceptBind_ok, exceptPure,
                    Except.ok.injEq] at h
                  subst h
                  exact Or.inr ⟨subj, body, rfl⟩
                · simp only [hmid, Bool.false_eq_true, if_false, exceptBind_ok,
                    exceptPure, Except.ok.injEq] at h
                  subst h
                  exact Or.inr ⟨subj, body, rfl⟩
      · simp only [Bool.not_eq_true'] at htr
        simp only [htr, Bool.not_false, if_true, exceptBind_ok, exceptPure,
          Except.ok.injEq] at h
        subst h
        exact Or.inl rfl

/-- Truncation `s[:n]` caps the character count at `n`. -/
theorem pySlice_length_le (s : String) (n : Nat) : (pySlice s n).length ≤ n := by
  have h : (pySlice s n).length = (s.data.take n).length := rfl
  rw [h, List.length_take]
  exact Nat.min_le_left n s.data.length

/-- The record loop preserves the subject-length bound on recorded calls. -/
theorem foldlM_calls_le (env : PyEnv) (topicArn : String) (ir : Bool)
    (rs : List PyVal) :
    ∀ st st2, List.foldlM (processRecord env topicArn ir) st rs = .ok st2 →
      (∀ c ∈ st.calls, c.subject.length ≤ 100) →
      ∀ c ∈ st2.calls, c.subject.length ≤ 100 := by
  induction rs with
  | nil =>
    intro st st2 h hst
    simp only [List.foldlM_nil, exceptPure, Except.ok.injEq] at h
    subst h
    exact hst
  | cons r rs ih =>
    intro st st2 h hst
    rw [List.foldlM_cons] at h
    cases h1 : processRecord env topicArn ir st r with
    | error e => rw [h1] at h; simp at h
    | ok st1 =>
      rw [h1, exceptBind_ok] at h
      refine ih st1 st2 h ?_
      rcases processRecord_calls env topicArn ir st r h1 with hc | ⟨s, b, hc⟩
      · rw [hc]; exact hst
      · rw [hc]
        intro c hcme
        rcases List.mem_append.mp hcme with hm | hm
        · exact hst c hm
        · rw [List.mem_singleton] at hm
          subst hm
          exact pySlice_length_le s 100

/-- On a dict event whose `Records` value is falsy, the handler returns the
400 dict (lines 24-27) and performs no publish call. -/
theorem lambda_handler_400 (env : PyEnv) (topicArn : String) (ir : Bool)
    {ev : List (String × PyVal)} {v : PyVal}
    (hr : lookupD ev "Records" (.list []) = v) (hv : truthy v = false) :
    lambda_handler env topicArn ir (.dict ev) =
      .ok (.dict [("statusCode", .int 400),
        ("body", .str "No SNS records provided")], []) := by
  unfold lambda_handler
  simp [pyGet_dict, hr, hv]

/-- On a dict event whose `Records` value is a non-empty list, the handler
runs the record loop from the empty state and returns the 200 dict built
from the final state. -/
theorem lambda_handler_200 (env : PyEnv) (topicArn : String) (ir : Bool)
    {ev : List (String × PyVal)} {rs : List PyVal} {st2 : LoopState}
    (hr : lookupD ev "Records" (.list []) = .list rs)
    (hf : List.foldlM (processRecord env topicArn ir) ⟨[], []⟩ rs = .ok st2)
    (hne : rs ≠ []) :
    lambda_handler env topicArn ir (.dict ev) =
      .ok (.dict [("statusCode", .int 200),
        ("messageIds", .list st2.message_ids)], st2.calls) := by
  unfold lambda_handler
  have htr : truthy (.list rs) = true := by
    simp [truthy, hne]
  simp [pyGet_dict, hr, htr, pyIter, hf]

/-- The accumulator of the join fold never shrinks. -/
theorem pyJoinStr_foldl_length (sep : String) (ys : List String) :
    ∀ acc : String, acc.length ≤
      (ys.foldl (fun a b => a ++ sep ++ b) acc).length := by
  induction ys with
  | nil => intro acc; simp
  | cons z zs ih =>
    intro acc
    calc acc.length ≤ (acc ++ sep ++ z).length := by
          rw [String.length_append, String.length_append]
          omega
      _ ≤ _ := ih (acc ++ sep ++ z)

/-- Joining a list headed by a non-empty string is non-empty. -/
theorem pyJoinStr_ne_empty (sep y : String) (ys : List String) (hy : y ≠ "") :
    pyJoinStr sep (y :: ys) ≠ "" := by
  intro hcon
  have h1 := pyJoinStr_foldl_length sep ys y
  have h2 : pyJoinStr sep (y :: ys) = ys.foldl (fun a b => a ++ sep ++ b) y := rfl
  rw [← h2, hcon] at h1
  have hy0 : y.length = 0 := Nat.le_zero.mp h1
  cases y with
  | mk data =>
    cases data with
    | nil => exact hy rfl
    | cons c cs =>
      have : (String.mk (c :: cs)).length = cs.length + 1 := rfl
      omega

/-! ### Claim theorems -/

/-- C2: `normalize_message` is total over all input strings: a string whose
decode yields a key-value mapping returns that mapping as-is; every other
string (decode failure, or decode to a non-mapping) returns exactly
`{"raw_message": <original string>}`; in both cases no exception is
raised. -/
theorem normalize_message_total (decode : String → Option PyVal) (s : String) :
    (∀ kvs, decode s = some (.dict kvs) →
      normalize_message decode (.str s) = .ok (.dict kvs)) ∧
    ((∀ kvs, decode s ≠ some (.dict kvs)) →
      normalize_message decode (.str s) =
        .ok (.dict [("raw_message", .str s)])) := by
  constructor
  · intro kvs h
    rw [normalize_message_decoded]
    simp [decodedPayload, h]
  · intro h
    rw [normalize_message_decoded]
    unfold decodedPayload
    cases hd : decode s with
    | none => rfl
    | some v =>
      cases v with
      | dict kvs => exact absurd hd (h kvs)
      | none => rfl
      | bool b => rfl
      | int n => rfl
      | str t => rfl
      | list xs => rfl

/-- C2 witness: a plain-text message is wrapped verbatim. -/
theorem normalize_message_total_witness :
    normalize_message (fun _ => Option.none) (.str "plain text") =
      .ok (.dict [("raw_message", .str "plain text")]) :=
  (normalize_message_total (fun _ => Option.none) "plain text").2
    (fun _ h => Option.noConfusion h)

/-- C3: `severity_text` is total over all strings with image exactly
\x7bCRITICAL, WARNING, RESOLVED, INFO\x7d: case-insensitively ALARM maps to
CRITICAL, INSUFFICIENT_DATA to WARNING, OK to RESOLVED, and everything else
(including UNKNOWN) to INFO; each of the four outputs is attained. -/
theorem severity_text_spec :
    (∀ s, severity_text s = "CRITICAL" ∨ severity_text s = "WARNING" ∨
      severity_text s = "RESOLVED" ∨ severity_text s = "INFO") ∧
    (∀ s, pyUpper s = "ALARM" → severity_text s = "CRITICAL") ∧
    (∀ s, pyUpper s = "INSUFFICIENT_DATA" → severity_text s = "WARNING") ∧
    (∀ s, pyUpper s = "OK" → severity_text s = "RESOLVED") ∧
    (∀ s, pyUpper s ≠ "ALARM" → pyUpper s ≠ "INSUFFICIENT_DATA" →
      pyUpper s ≠ "OK" → severity_text s = "INFO") ∧
    severity_text "ALARM" = "CRITICAL" ∧
    severity_text "INSUFFICIENT_DATA" = "WARNING" ∧
    severity_text "OK" = "RESOLVED" ∧
    severity_text "UNKNOWN" = "INFO" := by
  refine ⟨?_, ?_, ?_, ?_, ?_, rfl, rfl, rfl, rfl⟩ <;>
    (intro s
     try intro h1
     try intro h2
     try intro h3
     simp only [severity_text]
     split_ifs <;> simp_all)

/-- C3 witness: a lower-case alarm state maps to CRITICAL. -/
theorem severity_text_spec_witness : severity_text "alarm" = "CRITICAL" :=
  severity_text_spec.2.1 "alarm" rfl

/-- C4: `format_timestamp` returns "Unknown" for an absent or empty value,
renders any value that parses (after the `Z` to `+00:00` substitution) as
"YYYY-MM-DD HH:MM:SS UTC" — in particular "2024-01-15T10:30:00Z" becomes
"2024-01-15 10:30:00 UTC" — and returns any unparseable string unchanged
without throwing. -/
theorem format_timestamp_spec :
    format_timestamp .none = .ok "Unknown" ∧
    format_timestamp (.str "") = .ok "Unknown" ∧
    (∀ s dt, s ≠ "" → fromisoformat (pyReplace s "Z" "+00:00") = some dt →
      format_timestamp (.str s) = .ok (strftimeYmdHms dt ++ " UTC")) ∧
    (∀ s, s ≠ "" → fromisoformat (pyReplace s "Z" "+00:00") = Option.none →
      format_timestamp (.str s) = .ok s) ∧
    format_timestamp (.str "2024-01-15T10:30:00Z") =
      .ok "2024-01-15 10:30:00 UTC" ∧
    format_timestamp (.str "not-a-date") = .ok "not-a-date" := by
  refine ⟨rfl, rfl, ?_, ?_, rfl, rfl⟩
  · intro s dt hne h
    have htr : truthy (.str s) = true := by simp [truthy, hne]
    simp [format_timestamp, htr, h]
  · intro s hne h
    have htr : truthy (.str s) = true := by simp [truthy, hne]
    simp [format_timestamp, htr, h]

/-- C4 witness: a parseable timestamp without a `Z` designator also renders
through the parse branch. -/
theorem format_timestamp_spec_witness :
    format_timestamp (.str "2024-06-30T23:59:59") = .ok "2024-06-30 23:59:59 UTC" :=
  format_timestamp_spec.2.2.1 "2024-06-30T23:59:59"
    ⟨2024, 6, 30, 23, 59, 59, 0, Option.none⟩ (by simp) rfl

/-- C7: on an absent (defaulted to `{}`) or empty trigger mapping,
`extract_trigger_info` returns the record whose six metric fields are all
the literal "Unknown" and whose dimensions field is the literal "None". -/
theorem extract_trigger_info_empty (t : PyVal) (h : truthy t = false) :
    extract_trigger_info t = .ok ⟨.str "Unknown", .str "Unknown", .str "Unknown",
      .str "Unknown", .str "Unknown", .str "Unknown", "None"⟩ := by
  unfold extract_trigger_info
  simp [h]

/-- C7 witness: the empty trigger mapping. -/
theorem extract_trigger_info_empty_witness :
    extract_trigger_info (.dict []) = .ok ⟨.str "Unknown", .str "Unknown",
      .str "Unknown", .str "Unknown", .str "Unknown", .str "Unknown", "None"⟩ :=
  extract_trigger_info_empty (.dict []) rfl

/-- The first line of a rendered body (the header). -/
def headLine (s : String) : String :=
  String.mk (s.data.takeWhile (fun c => c != Char.ofNat 10))

/-- C8: on any non-empty trigger mapping, every TriggerInfo field is
resolved through its or-chain of possible source key names (tolerating both
the alarm-state-change and the generic metric-trigger payload shapes); the
resolved dimensions value, when a non-empty list of mappings, is rendered as
the single comma-joined "name=value" string, and any non-list resolved
value is stringified directly. -/
theorem extract_trigger_info_nonempty :
    (∀ kvs : List (String × PyVal), kvs ≠ [] →
      extract_trigger_info (.dict kvs) = .ok
        ⟨pyOr (lookupD kvs "MetricName" .none)
            (pyOr (lookupD kvs "Metric" .none) (.str "Unknown")),
          lookupD kvs "Namespace" (.str "Unknown"),
          pyOr (lookupD kvs "Statistic" .none) (lookupD kvs "Stat" (.str "Unknown")),
          pyOr (lookupD kvs "Period" .none)
            (pyOr (lookupD kvs "PeriodInSeconds" .none) (.str "Unknown")),
          lookupD kvs "EvaluationPeriods" (.str "Unknown"),
          lookupD kvs "Threshold" (.str "Unknown"),
          renderDims (pyOr (lookupD kvs "Dimensions" .none)
            (pyOr (lookupD kvs "dimension" .none) (.list [])))⟩) ∧
    (∀ xs : List PyVal, xs ≠ [] → (∀ d ∈ xs, d.isDict = true) →
      renderDims (.list xs) = pyJoinStr ", " (xs.map fun d =>
        pyStr ((pyGet d "name" .none).toOption.getD .none) ++ "=" ++
          pyStr ((pyGet d "value" .none).toOption.getD .none))) ∧
    (∀ v : PyVal, (∀ xs, v ≠ .list xs) → renderDims v = pyStr v) := by
  refine ⟨?_, ?_, ?_⟩
  · intro kvs h
    have ht : truthy (.dict kvs) = true := by simp [truthy, h]
    unfold extract_trigger_info
    simp [ht]
  · intro xs hne hdicts
    have hfilter : xs.filter (fun d => d.isDict) = xs :=
      List.filter_eq_self.mpr hdicts
    cases xs with
    | nil => exact absurd rfl hne
    | cons d ds =>
      have hy : (pyStr ((pyGet d "name" .none).toOption.getD .none) ++ "=" ++
          pyStr ((pyGet d "value" .none).toOption.getD .none)) ≠ "" := by
        intro hcon
        have hlen := congrArg String.length hcon
        rw [String.length_append, String.length_append] at hlen
        have h1 : ("=" : String).length = 1 := rfl
        have h0 : ("" : String).length = 0 := rfl
        omega
      have hne2 := pyJoinStr_ne_empty ", " _
        (ds.map (fun d => pyStr ((pyGet d "name" .none).toOption.getD .none)
          ++ "=" ++ pyStr ((pyGet d "value" .none).toOption.getD .none))) hy
      simp only [renderDims, hfilter, List.map_cons] at hne2 ⊢
      rw [if_neg hne2]
  · intro v h
    cases v with
    | list xs => exact absurd rfl (h xs)
    | none => rfl
    | bool b => rfl
    | int n => rfl
    | str s => rfl
    | dict kvs => rfl

/-- C8 witness: a metric-name trigger with one dimension pair. -/
theorem extract_trigger_info_nonempty_witness :
    extract_trigger_info (.dict [("MetricName", .str "Errors"),
      ("Dimensions", .list [.dict [("name", .str "Queue"), ("value", .str "q1")]])]) =
    .ok ⟨.str "Errors", .str "Unknown", .str "Unknown", .str "Unknown",
      .str "Unknown", .str "Unknown", "Queue=q1"⟩ :=
  extract_trigger_info_nonempty.1 _ (by simp)

/-- A do-nothing environment for concrete runs: decode always fails, dumps
is empty, publish responses are empty dicts. -/
def envNull : PyEnv := ⟨fun _ => Option.none, fun _ => "", fun _ => []⟩

/-- An environment whose publish responses carry a message id. -/
def envMsg : PyEnv :=
  ⟨fun _ => Option.none, fun _ => "", fun _ => [("MessageId", .str "mid-1")]⟩

/-- C5: for every event whose Records field is absent or the empty list,
the handler returns exactly the 400 response and performs no publish
call. -/
theorem lambda_handler_no_records (env : PyEnv) (topicArn : String) (ir : Bool)
    (ev : List (String × PyVal))
    (h : ev.lookup "Records" = Option.none ∨ ev.lookup "Records" = some (.list [])) :
    lambda_handler env topicArn ir (.dict ev) =
      .ok (.dict [("statusCode", .int 400),
        ("body", .str "No SNS records provided")], []) := by
  have hr : lookupD ev "Records" (.list []) = .list [] := by
    rcases h with h | h <;> simp [lookupD, h]
  exact lambda_handler_400 env topicArn ir hr rfl

/-- C5 witness: the empty event. -/
theorem lambda_handler_no_records_witness :
    lambda_handler envNull "arn:topic" false (.dict []) =
      .ok (.dict [("statusCode", .int 400),
        ("body", .str "No SNS records provided")], []) :=
  lambda_handler_no_records envNull "arn:topic" false [] (Or.inl rfl)

/-- C10: the body header resolves the alarm name only from "AlarmName"
defaulting to "Unknown", while the subject resolves it from "AlarmName"
then "Alarm" defaulting to "CloudWatch Alarm"; on a payload carrying only
"Alarm", and on one carrying neither key, subject and body header name the
alarm differently. -/
theorem alarm_name_divergence :
    (∀ kvs, bodyAlarmName (.dict kvs) =
      .ok (lookupD kvs "AlarmName" (.str "Unknown"))) ∧
    (∀ kvs, subjectAlarmName (.dict kvs) =
      .ok (pyOr (lookupD kvs "AlarmName" .none)
        (pyOr (lookupD kvs "Alarm" .none) (.str "CloudWatch Alarm")))) ∧
    format_subject (.dict [("Alarm", .str "X")]) = .ok "INFO - X" ∧
    (∀ dumps : PyVal → String, ∃ body,
      format_body dumps false (.dict [("Alarm", .str "X")]) = .ok body ∧
      headLine body = "INFO - Unknown" ∧ headLine body ≠ "INFO - X") ∧
    format_subject (.dict []) = .ok "INFO - CloudWatch Alarm" ∧
    (∀ dumps : PyVal → String, ∃ body,
      format_body dumps false (.dict []) = .ok body ∧
      headLine body = "INFO - Unknown" ∧
      headLine body ≠ "INFO - CloudWatch Alarm") := by
  refine ⟨fun kvs => rfl, fun kvs => rfl, rfl, ?_, rfl, ?_⟩
  · intro dumps
    exact ⟨_, rfl, rfl, by decide⟩
  · intro dumps
    exact ⟨_, rfl, rfl, by decide⟩

/-- C10 witness: the divergence at the payload carrying only the Alarm
key. -/
theorem alarm_name_divergence_witness :
    ∃ body, format_body (fun _ => "") false (.dict [("Alarm", .str "X")]) = .ok body ∧
      headLine body = "INFO - Unknown" ∧ headLine body ≠ "INFO - X" :=
  alarm_name_divergence.2.2.2.1 (fun _ => "")

/-- C1 counterexample: a malformed event — one record whose `Sns` entry is
the integer 5 — makes `lambda_handler` raise (`sns.get("Message")` on a
non-dict), instead of skipping the record: the handler is not exception-free
on malformed input. -/
theorem lambda_handler_raises_on_malformed :
    lambda_handler envNull "" false
      (.dict [("Records", .list [.dict [("Sns", .int 5)]])]) =
      .error "AttributeError: get" := rfl

/-- C1 (amended): `lambda_handler` raises no exception provided every record
is well-typed — the record and its `Sns` entry are mappings, any truthy
message is a string, and the decoded payload has a string state value,
string reason and AlarmArn values, a falsy-or-string timestamp value and a
falsy-or-mapping Trigger value (`eventOK`); records with a missing message
body are skipped and processing continues.  Outside `eventOK` the handler
can raise `AttributeError`/`TypeError`. -/
theorem lambda_handler_ok_of_eventOK (env : PyEnv) (topicArn : String)
    (ir : Bool) (event : PyVal) (h : eventOK env.jsonLoads event = true) :
    ∃ res, lambda_handler env topicArn ir event = .ok res := by
  cases event with
  | dict ev =>
    unfold eventOK at h
    cases hr : lookupD ev "Records" (.list []) with
    | list rs =>
      simp only [hr] at h
      by_cases hne : rs = []
      · subst hne
        exact ⟨_, lambda_handler_400 env topicArn ir hr rfl⟩
      · rw [List.all_eq_true] at h
        obtain ⟨st2, hf⟩ := foldlM_ok env topicArn ir h ⟨[], []⟩
        exact ⟨_, lambda_handler_200 env topicArn ir hr hf hne⟩
    | none =>
      exact ⟨_, lambda_handler_400 env topicArn ir hr rfl⟩
    | bool b =>
      simp only [hr, Bool.not_eq_true'] at h
      exact ⟨_, lambda_handler_400 env topicArn ir hr h⟩
    | int n =>
      simp only [hr, Bool.not_eq_true'] at h
      exact ⟨_, lambda_handler_400 env topicArn ir hr h⟩
    | str s =>
      simp only [hr, Bool.not_eq_true'] at h
      exact ⟨_, lambda_handler_400 env topicArn ir hr h⟩
    | dict kvs2 =>
      simp only [hr, Bool.not_eq_true'] at h
      exact ⟨_, lambda_handler_400 env topicArn ir hr h⟩
  | none => simp [eventOK] at h
  | bool b => simp [eventOK] at h
  | int n => simp [eventOK] at h
  | str s => simp [eventOK] at h
  | list xs => simp [eventOK] at h

/-- C1 (amended) witness: one well-typed plain-text record. -/
theorem lambda_handler_ok_of_eventOK_witness :
    ∃ res, lambda_handler envNull "arn:topic" false
      (.dict [("Records", .list
        [.dict [("Sns", .dict [("Message", .str "plain alarm text")])]])]) =
      .ok res :=
  lambda_handler_ok_of_eventOK envNull "arn:topic" false _ rfl

/-- C6: a two-record batch with one record missing its message body and one
well-formed record, with a topic configured, publishes exactly one message
(the well-formed record's), returns statusCode 200, and the messageIds list
holds only the id the publish response returned — in either record order:
the malformed record never aborts the batch. -/
theorem lambda_handler_partial_batch (env : PyEnv) (topicArn : String)
    (bad good : PyVal) (ht : ¬ topicArn = "")
    (hb : missingMessage bad = true) (hg : goodRecord env.jsonLoads good = true) :
    ∃ subj body,
      lambda_handler env topicArn false (.dict [("Records", .list [bad, good])]) =
        .ok (.dict [("statusCode", .int 200), ("messageIds", .list (midList env 0))],
          [⟨topicArn, pySlice subj 100, body⟩]) ∧
      lambda_handler env topicArn false (.dict [("Records", .list [good, bad])]) =
        .ok (.dict [("statusCode", .int 200), ("messageIds", .list (midList env 0))],
          [⟨topicArn, pySlice subj 100, body⟩]) := by
  obtain ⟨subj, body, hpr0⟩ :=
    processRecord_good env topicArn false ⟨[], []⟩ hg ht
  have hpr : processRecord env topicArn false ⟨[], []⟩ good =
      .ok ⟨midList env 0, [⟨topicArn, pySlice subj 100, body⟩]⟩ := by
    simpa using hpr0
  refine ⟨subj, body, ?_, ?_⟩
  · have hskip := processRecord_skip env topicArn false ⟨[], []⟩ hb
    have hf : List.foldlM (processRecord env topicArn false) ⟨[], []⟩ [bad, good] =
        .ok ⟨midList env 0, [⟨topicArn, pySlice subj 100, body⟩]⟩ := by
      rw [List.foldlM_cons, hskip, exceptBind_ok, List.foldlM_cons, hpr,
        exceptBind_ok, List.foldlM_nil]
      rfl
    have hr1 : lookupD [("Records", PyVal.list [bad, good])] "Records" (.list []) =
        .list [bad, good] := by simp [lookupD]
    have h200 := lambda_handler_200 env topicArn false hr1 hf (by simp)
    simpa using h200
  · have hskip := processRecord_skip env topicArn false
      ⟨midList env 0, [⟨topicArn, pySlice subj 100, body⟩]⟩ hb
    have hf : List.foldlM (processRecord env topicArn false) ⟨[], []⟩ [good, bad] =
        .ok ⟨midList env 0, [⟨topicArn, pySlice subj 100, body⟩]⟩ := by
      rw [List.foldlM_cons, hpr, exceptBind_ok, List.foldlM_cons, hskip,
        exceptBind_ok, List.foldlM_nil]
      rfl
    have hr1 : lookupD [("Records", PyVal.list [good, bad])] "Records" (.list []) =
        .list [good, bad] := by simp [lookupD]
    have h200 := lambda_handler_200 env topicArn false hr1 hf (by simp)
    simpa using h200

/-- C6 witness: concrete records, one with an empty `Sns` dict (no message)
and one with a plain-text message; the response id "mid-1" is collected. -/
theorem lambda_handler_partial_batch_witness :
    ∃ subj body,
      lambda_handler envMsg "arn:topic" false
        (.dict [("Records", .list [.dict [("Sns", .dict [])],
          .dict [("Sns", .dict [("Message", .str "hello")])]])]) =
        .ok (.dict [("statusCode", .int 200),
          ("messageIds", .list (midList envMsg 0))],
          [⟨"arn:topic", pySlice subj 100, body⟩]) ∧
      lambda_handler envMsg "arn:topic" false
        (.dict [("Records", .list [.dict [("Sns", .dict [("Message", .str "hello")])],
          .dict [("Sns", .dict [])]])]) =
        .ok (.dict [("statusCode", .int 200),
          ("messageIds", .list (midList envMsg 0))],
          [⟨"arn:topic", pySlice subj 100, body⟩]) :=
  lambda_handler_partial_batch envMsg "arn:topic"
    (.dict [("Sns", .dict [])])
    (.dict [("Sns", .dict [("Message", .str "hello")])])
    (by simp) rfl rfl

/-- C9: the subject handed to the publish call — the `format_subject` result
truncated by the caller's `subject[:100]` — never exceeds 100 characters:
both for any formatted payload and for every call the handler actually
performs. -/
theorem publish_subject_le_100 :
    (∀ payload subj, format_subject payload = .ok subj →
      (pySlice subj 100).length ≤ 100) ∧
    (∀ (env : PyEnv) (topicArn : String) (ir : Bool) (event res : PyVal)
      (calls : List PublishCall),
      lambda_handler env topicArn ir event = .ok (res, calls) →
      ∀ c ∈ calls, c.subject.length ≤ 100) := by
  constructor
  · intro payload subj _
    exact pySlice_length_le subj 100
  · intro env topicArn ir event res calls h c hc
    unfold lambda_handler at h
    cases hrec : pyGet event "Records" (.list []) with
    | error e => rw [hrec] at h; simp at h
    | ok records =>
      rw [hrec, exceptBind_ok] at h
      by_cases htr : truthy records
      · simp only [htr, Bool.not_true, Bool.false_eq_true, if_false] at h
        cases hit : pyIter records with
        | error e => rw [hit] at h; simp at h
        | ok items =>
          rw [hit, exceptBind_ok] at h
          cases hf : List.foldlM (processRecord env topicArn ir) ⟨[], []⟩ items with
          | error e => rw [hf] at h; simp at h
          | ok st2 =>
            rw [hf, exceptBind_ok] at h
            simp only [exceptBind_ok, exceptPure, Except.ok.injEq,
              Prod.mk.injEq] at h
            obtain ⟨-, hcalls⟩ := h
            subst hcalls
            exact foldlM_calls_le env topicArn ir items ⟨[], []⟩ st2 hf
              (by simp) c hc
      · simp only [Bool.not_eq_true'] at htr
        simp only [htr, Bool.not_false, if_true, exceptBind_ok, exceptPure,
          Except.ok.injEq, Prod.mk.injEq] at h
        obtain ⟨-, hcalls⟩ := h
        subst hcalls
        simp at hc

/-- C9 witness: the empty payload gives a subject within the bound. -/
theorem publish_subject_le_100_witness :
    (pySlice "INFO - CloudWatch Alarm" 100).length ≤ 100 :=
  publish_subject_le_100.1 (.dict []) "INFO - CloudWatch Alarm" rfl
